import Mathlib

/-!
# Card resource client (`card/client.go`)

A shallow embedding of the card client of stripe-go: the five operations
`Create`, `Get`, `Update`, `Delete`, `List` as methods of `Client`, the
package-level wrappers that first run `refresh`, and the transport
(`Backend.Call`) they delegate to.

Conventions of the embedding

* A Go pointer that may be nil is an `Option`; reading a field through a nil
  pointer is the runtime panic `Panic.nilDereference`, so every operation
  returns `Except Panic _`.
* The transport is an interface value with arbitrary behaviour and hidden
  state: `Backend σ` is a transition function on a state `σ`.  The destination
  argument of `Call` is a pointer the transport fills in place; the embedding
  passes the pointee in and gets the pointee back, of the same shape.
* Every operation reports, next to its Go return value, the transport state it
  leaves and the list of `Call` invocations it made (`Ret.calls`), so that
  "how often and with which arguments was the transport called" is a property
  of the result.
* `fmt.Sprintf` with `%v` verbs applied to strings is string concatenation.
* The parameter types and their serializers (`AppendDetails`, `AppendTo`) live
  in the parent stripe package, not in `card/client.go`.  They are modelled
  from the specification, as pure functions that read the bundle and extend
  the payload; the client itself only reads `Customer` and `Recipient`.
-/

namespace card

/-! ## Values, errors, entities -/

/-- Go `url.Values`, a multimap from keys to values, kept as the sequence of
`Add`ed key/value pairs; `&url.Values{}` is the empty sequence. -/
abbrev Values := List (String × String)

/-- Go `(url.Values).Add(key, value)`. -/
def Values.Add (v : Values) (key value : String) : Values :=
  v ++ [(key, value)]

/-- Go `error` values that are not nil; a nil `error` is `Option.none`. -/
structure GoError where
  msg : String
  deriving DecidableEq, Repr

/-- Go `errors.New`. -/
def errors.New (text : String) : GoError := ⟨text⟩

/-- Go builtin `len` on a string: its length in bytes. -/
def len (s : String) : Nat := s.utf8ByteSize

/-- Runtime faults of the Go program. -/
inductive Panic where
  | nilDereference
  deriving DecidableEq, Repr

/-- Reading through a pointer: a nil pointer panics. -/
def deref {α : Type} : Option α → Except Panic α
  | some a => .ok a
  | none => .error .nilDereference

/-- Modelled from the spec: the `Card` type declaration is not in `card/client.go`.
The spec describes it as an opaque server-returned entity that is decodable
from the transport response; `Card{}` is the value with every field zero. -/
structure Card where
  ID : String := ""
  Last4 : String := ""
  deriving DecidableEq, Repr

/-- Modelled from the spec: the `CardList` type declaration is not in
`card/client.go`.  The spec describes it as an ordered sequence of Card plus
list metadata; `CardList{}` is the value with every field zero. -/
structure CardList where
  Count : Nat := 0
  More : Bool := false
  Values : List Card := []
  deriving DecidableEq, Repr

/-! ## Parameter bundles -/

/-- One detail field of a card parameter bundle: its wire key, its value, and
whether it is one of the immutable fields (card number, expiry, ...). -/
structure DetailField where
  key : String
  value : String
  immutable : Bool
  deriving DecidableEq, Repr

/-- Modelled from the spec: the `CardParams` type declaration is not in
`card/client.go`.  The client reads `Customer` and `Recipient`; the remaining
fields are the operation-specific detail fields and the common fields that the
two serializers flatten. -/
structure CardParams where
  Customer : String := ""
  Recipient : String := ""
  Details : List DetailField := []
  Common : List (String × String) := []
  deriving DecidableEq, Repr

/-- Modelled from the spec: `(*CardParams).AppendDetails` is not in
`card/client.go`.  The spec: it flattens the operation-specific fields into the
payload, the "full" flag controls whether immutable fields like card
number/expiry are included, and an empty field is omitted, not sent empty. -/
def CardParams.AppendDetails (p : CardParams) (body : Values) (full : Bool) : Values :=
  p.Details.foldl
    (fun b f => if f.value ≠ "" ∧ (full ∨ f.immutable = false) then b.Add f.key f.value else b)
    body

/-- Modelled from the spec: `(*CardParams).AppendTo` is not in
`card/client.go`.  The spec: the common fields are flattened into the payload,
an empty field is omitted, not sent empty. -/
def CardParams.AppendTo (p : CardParams) (body : Values) : Values :=
  p.Common.foldl (fun b kv => if kv.2 ≠ "" then b.Add kv.1 kv.2 else b) body

/-- Modelled from the spec: the `CardListParams` type declaration is not in
`card/client.go`.  The client reads `Customer` and `Recipient`; the spec names
the filter/paging fields limit and startingAfter. -/
structure CardListParams where
  Customer : String := ""
  Recipient : String := ""
  Limit : Nat := 0
  StartingAfter : String := ""
  deriving DecidableEq, Repr

/-- Modelled from the spec: `(*CardListParams).AppendTo` is not in
`card/client.go`.  The spec: the filter/paging parameters are serialized as
key/value pairs, an absent (zero) field is omitted, and there are no
extraneous keys when filters are absent. -/
def CardListParams.AppendTo (p : CardListParams) (body : Values) : Values :=
  let b1 := if p.Limit ≠ 0 then body.Add "limit" (toString p.Limit) else body
  if p.StartingAfter ≠ "" then b1.Add "startingAfter" p.StartingAfter else b1

/-! ## Transport -/

/-- The dynamic shape of the destination handed to `Backend.Call`:
a nil interface, a `*Card`, or a `*CardList`. -/
inductive DestKind where
  | nil
  | card
  | list
  deriving DecidableEq, Repr

/-- The pointee of a destination of the given shape. -/
abbrev DestKind.Target : DestKind → Type
  | .nil => Unit
  | .card => Card
  | .list => CardList

/-- The arguments of one `Backend.Call(method, path, token, body, v)`:
`body` is a `*url.Values` (nil is `none`), `v` is the destination, given by
its shape and the pointee at the time of the call. -/
structure Request where
  verb : String
  path : String
  token : String
  body : Option Values
  kind : DestKind
  v : kind.Target

/-- The `Backend` interface: `Call` may change the transport's own state,
overwrite the destination's pointee and return an error (nil is `none`). -/
structure Backend (σ : Type) where
  Call : σ → (r : Request) → σ × r.kind.Target × Option GoError

/-- What an operation leaves behind: the transport state, the `Call`
invocations it made (oldest first) and its Go return value. -/
structure Ret (σ α : Type) where
  world : σ
  calls : List Request
  value : α

/-- Performs `r` on the transport and records it. -/
def Backend.invoke {σ : Type} (B : Backend σ) (s : σ) (r : Request) :
    Ret σ (r.kind.Target × Option GoError) :=
  let out := B.Call s r
  ⟨out.1, [r], (out.2.1, out.2.2)⟩

/-! ## The client -/

/-- Go `type Client struct { B Backend; Token string }`. -/
structure Client (σ : Type) where
  B : Backend σ
  Token : String

/-- The text of the parameter error every operation uses. -/
def invalidParams : String :=
  "Invalid card params: either customer or recipient need to be set"

/-- Go `func (c *Client) Create(params *CardParams) (*Card, error)`.
A nil `params` panics: the serializers and the dispatch read its fields. -/
def Client.Create {σ : Type} (c : Client σ) (s : σ) (params : Option CardParams) :
    Except Panic (Ret σ (Card × Option GoError)) := do
  let p ← deref params
  let body := p.AppendTo (p.AppendDetails [] true)
  let card : Card := {}
  if len p.Customer > 0 then
    pure (c.B.invoke s
      ⟨"POST", "/customers/" ++ p.Customer ++ "/cards", c.Token, some body, .card, card⟩)
  else if len p.Recipient > 0 then
    pure (c.B.invoke s
      ⟨"POST", "/recipients/" ++ p.Recipient ++ "/cards", c.Token, some body, .card, card⟩)
  else
    pure ⟨s, [], (card, some (errors.New invalidParams))⟩

/-- Go `func (c *Client) Get(id string, params *CardParams) (*Card, error)`:
the payload is built only under `params != nil`, the dispatch reads
`params.Customer` unguarded. -/
def Client.Get {σ : Type} (c : Client σ) (s : σ) (id : String) (params : Option CardParams) :
    Except Panic (Ret σ (Card × Option GoError)) := do
  let body : Option Values :=
    match params with
    | some p => some (p.AppendTo [])
    | none => none
  let card : Card := {}
  let p ← deref params
  if len p.Customer > 0 then
    pure (c.B.invoke s
      ⟨"GET", "/customers/" ++ p.Customer ++ "/cards/" ++ id, c.Token, body, .card, card⟩)
  else if len p.Recipient > 0 then
    pure (c.B.invoke s
      ⟨"GET", "/recipients/" ++ p.Recipient ++ "/cards/" ++ id, c.Token, body, .card, card⟩)
  else
    pure ⟨s, [], (card, some (errors.New invalidParams))⟩

/-- Go `func (c *Client) Update(id string, params *CardParams) (*Card, error)`.
A nil `params` panics: the serializers and the dispatch read its fields. -/
def Client.Update {σ : Type} (c : Client σ) (s : σ) (id : String) (params : Option CardParams) :
    Except Panic (Ret σ (Card × Option GoError)) := do
  let p ← deref params
  let body := p.AppendTo (p.AppendDetails [] false)
  let card : Card := {}
  if len p.Customer > 0 then
    pure (c.B.invoke s
      ⟨"POST", "/customers/" ++ p.Customer ++ "/cards/" ++ id, c.Token, some body, .card, card⟩)
  else if len p.Recipient > 0 then
    pure (c.B.invoke s
      ⟨"POST", "/recipients/" ++ p.Recipient ++ "/cards/" ++ id, c.Token, some body, .card, card⟩)
  else
    pure ⟨s, [], (card, some (errors.New invalidParams))⟩

/-- Go `func (c *Client) Delete(id string, params *CardParams) error`.
A nil `params` panics at `len(params.Customer)`. -/
def Client.Delete {σ : Type} (c : Client σ) (s : σ) (id : String) (params : Option CardParams) :
    Except Panic (Ret σ (Option GoError)) := do
  let p ← deref params
  if len p.Customer > 0 then
    let r := c.B.invoke s
      ⟨"DELETE", "/customers/" ++ p.Customer ++ "/cards/" ++ id, c.Token, none, .nil, ()⟩
    pure ⟨r.world, r.calls, r.value.2⟩
  else if len p.Recipient > 0 then
    let r := c.B.invoke s
      ⟨"DELETE", "/recipients/" ++ p.Recipient ++ "/cards/" ++ id, c.Token, none, .nil, ()⟩
    pure ⟨r.world, r.calls, r.value.2⟩
  else
    pure ⟨s, [], some (errors.New invalidParams)⟩

/-- Go `func (c *Client) List(params *CardListParams) (*CardList, error)`.
The payload is allocated unconditionally; a nil `params` panics when the
serializer and the dispatch read its fields. -/
def Client.List {σ : Type} (c : Client σ) (s : σ) (params : Option CardListParams) :
    Except Panic (Ret σ (CardList × Option GoError)) := do
  let body : Values := []
  let p ← deref params
  let body := p.AppendTo body
  let list : CardList := {}
  if len p.Customer > 0 then
    pure (c.B.invoke s
      ⟨"GET", "/customers/" ++ p.Customer ++ "/cards", c.Token, some body, .list, list⟩)
  else if len p.Recipient > 0 then
    pure (c.B.invoke s
      ⟨"GET", "/recipients/" ++ p.Recipient ++ "/cards", c.Token, some body, .list, list⟩)
  else
    pure ⟨s, [], (list, some (errors.New invalidParams))⟩

/-! ## Observing the transport calls of an operation -/

/-- The verb and path of a call. -/
def Request.route (r : Request) : String × String := (r.verb, r.path)

/-- One attribute of every call an operation made, oldest call first;
`none` when the operation panicked. -/
def observe {σ α β : Type} (f : Request → β) (x : Except Panic (Ret σ α)) :
    Option (List β) :=
  match x with
  | .ok r => some (r.calls.map f)
  | .error _ => none

/-- The verb and path of every call an operation made. -/
def routes {σ α : Type} (x : Except Panic (Ret σ α)) : Option (List (String × String)) :=
  observe Request.route x

/-- The payload argument of every call an operation made (`none` is a nil
payload). -/
def payloads {σ α : Type} (x : Except Panic (Ret σ α)) : Option (List (Option Values)) :=
  observe Request.body x

/-- The auth token of every call an operation made. -/
def tokens {σ α : Type} (x : Except Panic (Ret σ α)) : Option (List String) :=
  observe Request.token x

/-! ## Package-level state and wrappers -/

/-- The mutable state the package-level functions read and write: the shared
client `var c *Client` of this package, and the two things `refresh` reads
from the stripe package, the variable `Key` and the backend `GetBackend()`
returns. -/
structure Globals (σ : Type) where
  c : Option (Client σ)
  Key : String
  GetBackend : Backend σ

/-- Go `func refresh()`: creates the shared client when it is nil (its token
is then the zero string), and in every case overwrites its token with `Key`. -/
def refresh {σ : Type} (g : Globals σ) : Globals σ :=
  let c0 : Client σ :=
    match g.c with
    | none => { B := g.GetBackend, Token := "" }
    | some cl => cl
  { g with c := some { c0 with Token := g.Key } }

/-- Go `func Create(params *CardParams) (*Card, error)`. -/
def Create {σ : Type} (g : Globals σ) (s : σ) (params : Option CardParams) :
    Globals σ × Except Panic (Ret σ (Card × Option GoError)) :=
  let g1 := refresh g
  (g1, do let c ← deref g1.c; c.Create s params)

/-- Go `func Get(id string, params *CardParams) (*Card, error)`. -/
def Get {σ : Type} (g : Globals σ) (s : σ) (id : String) (params : Option CardParams) :
    Globals σ × Except Panic (Ret σ (Card × Option GoError)) :=
  let g1 := refresh g
  (g1, do let c ← deref g1.c; c.Get s id params)

/-- Go `func Update(id string, params *CardParams) (*Card, error)`. -/
def Update {σ : Type} (g : Globals σ) (s : σ) (id : String) (params : Option CardParams) :
    Globals σ × Except Panic (Ret σ (Card × Option GoError)) :=
  let g1 := refresh g
  (g1, do let c ← deref g1.c; c.Update s id params)

/-- Go `func Delete(id string, params *CardParams) error`. -/
def Delete {σ : Type} (g : Globals σ) (s : σ) (id : String) (params : Option CardParams) :
    Globals σ × Except Panic (Ret σ (Option GoError)) :=
  let g1 := refresh g
  (g1, do let c ← deref g1.c; c.Delete s id params)

/-- Go `func List(params *CardListParams) (*CardList, error)`. -/
def List {σ : Type} (g : Globals σ) (s : σ) (params : Option CardListParams) :
    Globals σ × Except Panic (Ret σ (CardList × Option GoError)) :=
  let g1 := refresh g
  (g1, do let c ← deref g1.c; c.List s params)

/-! ## A concrete transport for evaluation -/

/-- A transport whose state counts the calls it served.  It fails with
"unauthorized" on an empty token, leaving the destination untouched;
otherwise it fills a card destination with id `card_A`, a list destination
with one such card, and returns nil. -/
def countingBackend : Backend Nat where
  Call := fun n r =>
    if r.token = "" then (n + 1, r.v, some (errors.New "unauthorized"))
    else
      match r with
      | ⟨_, _, _, _, .nil, _⟩ => (n + 1, (), none)
      | ⟨_, _, _, _, .card, _⟩ => (n + 1, { ID := "card_A", Last4 := "4242" }, none)
      | ⟨_, _, _, _, .list, _⟩ =>
        (n + 1, { Count := 1, More := false, Values := [{ ID := "card_A", Last4 := "4242" }] }, none)

/-- A client over `countingBackend` with a non-empty token. -/
def demoClient : Client Nat := { B := countingBackend, Token := "sk_test" }

/-- A client over `countingBackend` with an empty token: every call fails. -/
def anonClient : Client Nat := { B := countingBackend, Token := "" }

/-- The card bundle of the scenario in the specification: customer `cus_1`,
card number and expiry (immutable details), a holder name (mutable detail)
and one common field. -/
def demoParams : CardParams :=
  { Customer := "cus_1"
    Details := [⟨"number", "4242", true⟩, ⟨"exp_month", "12", true⟩, ⟨"exp_year", "24", true⟩,
      ⟨"name", "Jane", false⟩, ⟨"cvc", "", true⟩]
    Common := [("expand[]", "customer"), ("description", "")] }

/-- Package state before the first top-level call: no shared client yet. -/
def freshGlobals : Globals Nat := { c := none, Key := "sk_live", GetBackend := countingBackend }

/-- Package state with a shared client that still holds an old token. -/
def staleGlobals : Globals Nat := { c := some demoClient, Key := "sk_live", GetBackend := countingBackend }

/-! ## Dispatch lemmas

Each operation has three branches; the lemmas below evaluate an operation in
each of them. -/

theorem len_empty : len "" = 0 := rfl

theorem len_pos_of_ne (s : String) (h : s ≠ "") : 0 < len s := by
  unfold len
  rcases s with ⟨l⟩
  cases l with
  | nil => exact absurd rfl h
  | cons a t =>
    simp [String.utf8ByteSize, String.utf8ByteSize.go]
    have := Char.utf8Size_pos a
    omega

section dispatch

variable {σ : Type} (c : Client σ) (s : σ) (id : String)

theorem Create_customer (p : CardParams) (hc : p.Customer ≠ "") :
    c.Create s (some p) = .ok (c.B.invoke s
      ⟨"POST", "/customers/" ++ p.Customer ++ "/cards", c.Token,
        some (p.AppendTo (p.AppendDetails [] true)), .card, {}⟩) := by
  simp [Client.Create, deref, len_pos_of_ne _ hc, bind, Except.bind, pure, Except.pure]

theorem Create_recipient (p : CardParams) (hc : p.Customer = "") (hr : p.Recipient ≠ "") :
    c.Create s (some p) = .ok (c.B.invoke s
      ⟨"POST", "/recipients/" ++ p.Recipient ++ "/cards", c.Token,
        some (p.AppendTo (p.AppendDetails [] true)), .card, {}⟩) := by
  simp [Client.Create, deref, hc, len_empty, len_pos_of_ne _ hr, bind, Except.bind, pure,
    Except.pure]

theorem Create_neither (p : CardParams) (hc : p.Customer = "") (hr : p.Recipient = "") :
    c.Create s (some p) = .ok ⟨s, [], ({}, some (errors.New invalidParams))⟩ := by
  simp [Client.Create, deref, hc, hr, len_empty, bind, Except.bind, pure, Except.pure]

theorem Get_customer (p : CardParams) (hc : p.Customer ≠ "") :
    c.Get s id (some p) = .ok (c.B.invoke s
      ⟨"GET", "/customers/" ++ p.Customer ++ "/cards/" ++ id, c.Token,
        some (p.AppendTo []), .card, {}⟩) := by
  simp [Client.Get, deref, len_pos_of_ne _ hc, bind, Except.bind, pure, Except.pure]

theorem Get_recipient (p : CardParams) (hc : p.Customer = "") (hr : p.Recipient ≠ "") :
    c.Get s id (some p) = .ok (c.B.invoke s
      ⟨"GET", "/recipients/" ++ p.Recipient ++ "/cards/" ++ id, c.Token,
        some (p.AppendTo []), .card, {}⟩) := by
  simp [Client.Get, deref, hc, len_empty, len_pos_of_ne _ hr, bind, Except.bind, pure,
    Except.pure]

theorem Get_neither (p : CardParams) (hc : p.Customer = "") (hr : p.Recipient = "") :
    c.Get s id (some p) = .ok ⟨s, [], ({}, some (errors.New invalidParams))⟩ := by
  simp [Client.Get, deref, hc, hr, len_empty, bind, Except.bind, pure, Except.pure]

theorem Update_customer (p : CardParams) (hc : p.Customer ≠ "") :
    c.Update s id (some p) = .ok (c.B.invoke s
      ⟨"POST", "/customers/" ++ p.Customer ++ "/cards/" ++ id, c.Token,
        some (p.AppendTo (p.AppendDetails [] false)), .card, {}⟩) := by
  simp [Client.Update, deref, len_pos_of_ne _ hc, bind, Except.bind, pure, Except.pure]

theorem Update_recipient (p : CardParams) (hc : p.Customer = "") (hr : p.Recipient ≠ "") :
    c.Update s id (some p) = .ok (c.B.invoke s
      ⟨"POST", "/recipients/" ++ p.Recipient ++ "/cards/" ++ id, c.Token,
        some (p.AppendTo (p.AppendDetails [] false)), .card, {}⟩) := by
  simp [Client.Update, deref, hc, len_empty, len_pos_of_ne _ hr, bind, Except.bind, pure,
    Except.pure]

theorem Update_neither (p : CardParams) (hc : p.Customer = "") (hr : p.Recipient = "") :
    c.Update s id (some p) = .ok ⟨s, [], ({}, some (errors.New invalidParams))⟩ := by
  simp [Client.Update, deref, hc, hr, len_empty, bind, Except.bind, pure, Except.pure]

theorem Delete_customer (p : CardParams) (hc : p.Customer ≠ "") :
    c.Delete s id (some p) =
      .ok ⟨(c.B.Call s
              ⟨"DELETE", "/customers/" ++ p.Customer ++ "/cards/" ++ id, c.Token, none, .nil, ()⟩).1,
           [⟨"DELETE", "/customers/" ++ p.Customer ++ "/cards/" ++ id, c.Token, none, .nil, ()⟩],
           (c.B.Call s
              ⟨"DELETE", "/customers/" ++ p.Customer ++ "/cards/" ++ id, c.Token, none, .nil, ()⟩).2.2⟩ := by
  simp [Client.Delete, deref, len_pos_of_ne _ hc, bind, Except.bind, pure, Except.pure,
    Backend.invoke]

theorem Delete_recipient (p : CardParams) (hc : p.Customer = "") (hr : p.Recipient ≠ "") :
    c.Delete s id (some p) =
      .ok ⟨(c.B.Call s
              ⟨"DELETE", "/recipients/" ++ p.Recipient ++ "/cards/" ++ id, c.Token, none, .nil, ()⟩).1,
           [⟨"DELETE", "/recipients/" ++ p.Recipient ++ "/cards/" ++ id, c.Token, none, .nil, ()⟩],
           (c.B.Call s
              ⟨"DELETE", "/recipients/" ++ p.Recipient ++ "/cards/" ++ id, c.Token, none, .nil, ()⟩).2.2⟩ := by
  simp [Client.Delete, deref, hc, len_empty, len_pos_of_ne _ hr, bind, Except.bind, pure,
    Except.pure, Backend.invoke]

theorem Delete_neither (p : CardParams) (hc : p.Customer = "") (hr : p.Recipient = "") :
    c.Delete s id (some p) = .ok ⟨s, [], some (errors.New invalidParams)⟩ := by
  simp [Client.Delete, deref, hc, hr, len_empty, bind, Except.bind, pure, Except.pure]

theorem List_customer (q : CardListParams) (hc : q.Customer ≠ "") :
    c.List s (some q) = .ok (c.B.invoke s
      ⟨"GET", "/customers/" ++ q.Customer ++ "/cards", c.Token,
        some (q.AppendTo []), .list, {}⟩) := by
  simp [Client.List, deref, len_pos_of_ne _ hc, bind, Except.bind, pure, Except.pure]

theorem List_recipient (q : CardListParams) (hc : q.Customer = "") (hr : q.Recipient ≠ "") :
    c.List s (some q) = .ok (c.B.invoke s
      ⟨"GET", "/recipients/" ++ q.Recipient ++ "/cards", c.Token,
        some (q.AppendTo []), .list, {}⟩) := by
  simp [Client.List, deref, hc, len_empty, len_pos_of_ne _ hr, bind, Except.bind, pure,
    Except.pure]

theorem List_neither (q : CardListParams) (hc : q.Customer = "") (hr : q.Recipient = "") :
    c.List s (some q) = .ok ⟨s, [], ({}, some (errors.New invalidParams))⟩ := by
  simp [Client.List, deref, hc, hr, len_empty, bind, Except.bind, pure, Except.pure]

end dispatch

/-! ## Path shapes -/

theorem item_path_split (root parent id : String) :
    root ++ parent ++ "/cards/" ++ id = root ++ parent ++ "/cards" ++ ("/" ++ id) := by
  have h : ("/cards/" : String) = "/cards" ++ "/" := by decide
  rw [h]
  simp only [String.append_assoc]

/-! ## The claims -/

/-- C1: for every parameter bundle whose Customer and Recipient are both
empty, and every id, each of Create, Get, Update, Delete and List returns
normally with the parameter error (a non-nil error), makes no transport call
and leaves the transport state as it was. -/
theorem C1_no_parent_parameter_error {σ : Type} (c : Client σ) (s : σ) (id : String)
    (p : CardParams) (q : CardListParams)
    (hpc : p.Customer = "") (hpr : p.Recipient = "")
    (hqc : q.Customer = "") (hqr : q.Recipient = "") :
    c.Create s (some p) = .ok ⟨s, [], ({}, some (errors.New invalidParams))⟩ ∧
    c.Get s id (some p) = .ok ⟨s, [], ({}, some (errors.New invalidParams))⟩ ∧
    c.Update s id (some p) = .ok ⟨s, [], ({}, some (errors.New invalidParams))⟩ ∧
    c.Delete s id (some p) = .ok ⟨s, [], some (errors.New invalidParams)⟩ ∧
    c.List s (some q) = .ok ⟨s, [], ({}, some (errors.New invalidParams))⟩ :=
  ⟨Create_neither c s p hpc hpr, Get_neither c s id p hpc hpr, Update_neither c s id p hpc hpr,
    Delete_neither c s id p hpc hpr, List_neither c s q hqc hqr⟩

/-- C1 at a concrete input: on the counting transport, with a bundle that
names no parent, all five operations return the parameter error and the call
counter stays at 0. -/
theorem C1_no_parent_parameter_error_witness :
    demoClient.Create 0 (some {}) = .ok ⟨0, [], ({}, some (errors.New invalidParams))⟩ ∧
    demoClient.Get 0 "card_A" (some {}) = .ok ⟨0, [], ({}, some (errors.New invalidParams))⟩ ∧
    demoClient.Update 0 "card_A" (some {}) = .ok ⟨0, [], ({}, some (errors.New invalidParams))⟩ ∧
    demoClient.Delete 0 "card_A" (some {}) = .ok ⟨0, [], some (errors.New invalidParams)⟩ ∧
    demoClient.List 0 (some {}) = .ok ⟨0, [], ({}, some (errors.New invalidParams))⟩ :=
  C1_no_parent_parameter_error demoClient 0 "card_A" {} {} rfl rfl rfl rfl

/-- C2: for bundles with non-empty Customer `cust`, and every id, each
operation makes exactly one transport call, with verb and path
Create = POST /customers/cust/cards, Get = GET /customers/cust/cards/id,
Update = POST /customers/cust/cards/id, Delete = DELETE /customers/cust/cards/id,
List = GET /customers/cust/cards; and every one of these paths starts with
/customers/cust/cards.  The Recipient field is not consulted on this branch,
so the statement covers the bundles with Recipient empty. -/
theorem C2_customer_routes {σ : Type} (c : Client σ) (s : σ) (id cust : String)
    (p : CardParams) (q : CardListParams) (hne : cust ≠ "")
    (hpc : p.Customer = cust) (hqc : q.Customer = cust) :
    routes (c.Create s (some p)) = some [("POST", "/customers/" ++ cust ++ "/cards")] ∧
    routes (c.Get s id (some p)) = some [("GET", "/customers/" ++ cust ++ "/cards/" ++ id)] ∧
    routes (c.Update s id (some p)) = some [("POST", "/customers/" ++ cust ++ "/cards/" ++ id)] ∧
    routes (c.Delete s id (some p)) =
      some [("DELETE", "/customers/" ++ cust ++ "/cards/" ++ id)] ∧
    routes (c.List s (some q)) = some [("GET", "/customers/" ++ cust ++ "/cards")] ∧
    ∀ rs ∈ [routes (c.Create s (some p)), routes (c.Get s id (some p)),
        routes (c.Update s id (some p)), routes (c.Delete s id (some p)),
        routes (c.List s (some q))],
      ∀ l, rs = some l → ∀ r ∈ l, ∃ rest, r.2 = "/customers/" ++ cust ++ "/cards" ++ rest := by
  subst hpc
  have hq : q.Customer ≠ "" := by rw [hqc]; exact hne
  have h1 : routes (c.Create s (some p)) = some [("POST", "/customers/" ++ p.Customer ++ "/cards")] := by
    rw [Create_customer c s p hne]; rfl
  have h2 : routes (c.Get s id (some p)) =
      some [("GET", "/customers/" ++ p.Customer ++ "/cards/" ++ id)] := by
    rw [Get_customer c s id p hne]; rfl
  have h3 : routes (c.Update s id (some p)) =
      some [("POST", "/customers/" ++ p.Customer ++ "/cards/" ++ id)] := by
    rw [Update_customer c s id p hne]; rfl
  have h4 : routes (c.Delete s id (some p)) =
      some [("DELETE", "/customers/" ++ p.Customer ++ "/cards/" ++ id)] := by
    rw [Delete_customer c s id p hne]; rfl
  have h5 : routes (c.List s (some q)) = some [("GET", "/customers/" ++ p.Customer ++ "/cards")] := by
    rw [List_customer c s q hq, hqc]; rfl
  refine ⟨h1, h2, h3, h4, h5, ?_⟩
  intro rs hrs l hl r hr
  rw [h1, h2, h3, h4, h5] at hrs
  simp only [List.mem_cons, List.mem_singleton, List.not_mem_nil, or_false] at hrs
  rcases hrs with h | h | h | h | h <;> subst h <;> cases hl <;>
    simp only [List.mem_singleton] at hr <;> subst hr
  · exact ⟨"", by simp⟩
  · exact ⟨"/" ++ id, item_path_split _ _ _⟩
  · exact ⟨"/" ++ id, item_path_split _ _ _⟩
  · exact ⟨"/" ++ id, item_path_split _ _ _⟩
  · exact ⟨"", by simp⟩

/-- C2 at a concrete input: customer `cus_1`, card `card_A`. -/
theorem C2_customer_routes_witness :
    "cus_1" ≠ "" ∧
    routes (demoClient.Create 0 (some { Customer := "cus_1" })) =
      some [("POST", "/customers/cus_1/cards")] ∧
    routes (demoClient.Get 0 "card_A" (some { Customer := "cus_1" })) =
      some [("GET", "/customers/cus_1/cards/card_A")] ∧
    routes (demoClient.Update 0 "card_A" (some { Customer := "cus_1" })) =
      some [("POST", "/customers/cus_1/cards/card_A")] ∧
    routes (demoClient.Delete 0 "card_A" (some { Customer := "cus_1" })) =
      some [("DELETE", "/customers/cus_1/cards/card_A")] ∧
    routes (demoClient.List 0 (some { Customer := "cus_1" })) =
      some [("GET", "/customers/cus_1/cards")] :=
  have h := C2_customer_routes demoClient 0 "card_A" "cus_1" { Customer := "cus_1" }
    { Customer := "cus_1" } (by decide) rfl rfl
  ⟨by decide, h.1, h.2.1, h.2.2.1, h.2.2.2.1, h.2.2.2.2.1⟩

/-- C3: for bundles with empty Customer and non-empty Recipient `rcp`, and
every id, each operation makes exactly one transport call, with verb and path
Create = POST /recipients/rcp/cards, Get = GET /recipients/rcp/cards/id,
Update = POST /recipients/rcp/cards/id, Delete = DELETE /recipients/rcp/cards/id,
List = GET /recipients/rcp/cards. -/
theorem C3_recipient_routes {σ : Type} (c : Client σ) (s : σ) (id rcp : String)
    (p : CardParams) (q : CardListParams) (hne : rcp ≠ "")
    (hpc : p.Customer = "") (hpr : p.Recipient = rcp)
    (hqc : q.Customer = "") (hqr : q.Recipient = rcp) :
    routes (c.Create s (some p)) = some [("POST", "/recipients/" ++ rcp ++ "/cards")] ∧
    routes (c.Get s id (some p)) = some [("GET", "/recipients/" ++ rcp ++ "/cards/" ++ id)] ∧
    routes (c.Update s id (some p)) = some [("POST", "/recipients/" ++ rcp ++ "/cards/" ++ id)] ∧
    routes (c.Delete s id (some p)) =
      some [("DELETE", "/recipients/" ++ rcp ++ "/cards/" ++ id)] ∧
    routes (c.List s (some q)) = some [("GET", "/recipients/" ++ rcp ++ "/cards")] := by
  subst hpr
  have hq : q.Recipient ≠ "" := by rw [hqr]; exact hne
  refine ⟨?_, ?_, ?_, ?_, ?_⟩
  · rw [Create_recipient c s p hpc hne]; rfl
  · rw [Get_recipient c s id p hpc hne]; rfl
  · rw [Update_recipient c s id p hpc hne]; rfl
  · rw [Delete_recipient c s id p hpc hne]; rfl
  · rw [List_recipient c s q hqc hq, hqr]; rfl

/-- C3 at the scenario of the specification: `Get("card_A", {Recipient: "rp_1"})`
calls `GET /recipients/rp_1/cards/card_A`. -/
theorem C3_recipient_routes_witness :
    "rp_1" ≠ "" ∧
    routes (demoClient.Get 0 "card_A" (some { Recipient := "rp_1" })) =
      some [("GET", "/recipients/rp_1/cards/card_A")] :=
  ⟨by decide,
    (C3_recipient_routes demoClient 0 "card_A" "rp_1" { Recipient := "rp_1" }
      { Recipient := "rp_1" } (by decide) rfl rfl rfl rfl).2.1⟩

/-- C4: when Customer and Recipient are both non-empty no operation rejects
the bundle: each operation makes exactly one transport call, on the customer
route, and the verb and path of that call stay the same when the Recipient
is replaced by any other value `r`. -/
theorem C4_both_set_routes_to_customer {σ : Type} (c : Client σ) (s : σ) (id : String)
    (p : CardParams) (q : CardListParams)
    (hpc : p.Customer ≠ "") (_hpr : p.Recipient ≠ "")
    (hqc : q.Customer ≠ "") (_hqr : q.Recipient ≠ "") :
    (routes (c.Create s (some p)) = some [("POST", "/customers/" ++ p.Customer ++ "/cards")] ∧
     routes (c.Get s id (some p)) =
       some [("GET", "/customers/" ++ p.Customer ++ "/cards/" ++ id)] ∧
     routes (c.Update s id (some p)) =
       some [("POST", "/customers/" ++ p.Customer ++ "/cards/" ++ id)] ∧
     routes (c.Delete s id (some p)) =
       some [("DELETE", "/customers/" ++ p.Customer ++ "/cards/" ++ id)] ∧
     routes (c.List s (some q)) = some [("GET", "/customers/" ++ q.Customer ++ "/cards")]) ∧
    ∀ r : String,
      routes (c.Create s (some { p with Recipient := r })) = routes (c.Create s (some p)) ∧
      routes (c.Get s id (some { p with Recipient := r })) = routes (c.Get s id (some p)) ∧
      routes (c.Update s id (some { p with Recipient := r })) =
        routes (c.Update s id (some p)) ∧
      routes (c.Delete s id (some { p with Recipient := r })) =
        routes (c.Delete s id (some p)) ∧
      routes (c.List s (some { q with Recipient := r })) = routes (c.List s (some q)) := by
  refine ⟨⟨?_, ?_, ?_, ?_, ?_⟩, fun r => ⟨?_, ?_, ?_, ?_, ?_⟩⟩
  · rw [Create_customer c s p hpc]; rfl
  · rw [Get_customer c s id p hpc]; rfl
  · rw [Update_customer c s id p hpc]; rfl
  · rw [Delete_customer c s id p hpc]; rfl
  · rw [List_customer c s q hqc]; rfl
  · rw [Create_customer c s p hpc, Create_customer c s { p with Recipient := r } hpc]; rfl
  · rw [Get_customer c s id p hpc, Get_customer c s id { p with Recipient := r } hpc]; rfl
  · rw [Update_customer c s id p hpc, Update_customer c s id { p with Recipient := r } hpc]; rfl
  · rw [Delete_customer c s id p hpc, Delete_customer c s id { p with Recipient := r } hpc]
  · rw [List_customer c s q hqc, List_customer c s { q with Recipient := r } hqc]; rfl

/-- C4 at a concrete input: customer `cus_1` together with recipient `rp_1`
goes to the customer route, and so does the same bundle with recipient
`rp_2`. -/
theorem C4_both_set_routes_to_customer_witness :
    routes (demoClient.Get 0 "card_A" (some { Customer := "cus_1", Recipient := "rp_1" })) =
      some [("GET", "/customers/cus_1/cards/card_A")] ∧
    routes (demoClient.Get 0 "card_A" (some { Customer := "cus_1", Recipient := "rp_2" })) =
      routes (demoClient.Get 0 "card_A" (some { Customer := "cus_1", Recipient := "rp_1" })) :=
  have h := C4_both_set_routes_to_customer demoClient 0 "card_A"
    { Customer := "cus_1", Recipient := "rp_1" } { Customer := "cus_1", Recipient := "rp_1" }
    (by decide) (by decide) (by decide) (by decide)
  ⟨h.1.2.1, (h.2 "rp_2").2.1⟩

/-- C5: for every id and every bundle with a parent set, Delete makes exactly
one transport call, a DELETE with a nil payload and a nil destination, and
returns exactly the error that call returned. -/
theorem C5_delete_nil_payload_nil_destination {σ : Type} (c : Client σ) (s : σ) (id : String)
    (p : CardParams) (hp : p.Customer ≠ "" ∨ p.Recipient ≠ "") :
    ∃ path : String,
      c.Delete s id (some p) =
        .ok ⟨(c.B.Call s ⟨"DELETE", path, c.Token, none, .nil, ()⟩).1,
             [⟨"DELETE", path, c.Token, none, .nil, ()⟩],
             (c.B.Call s ⟨"DELETE", path, c.Token, none, .nil, ()⟩).2.2⟩ := by
  by_cases hc : p.Customer = ""
  · have hr : p.Recipient ≠ "" := hp.resolve_left (fun h => h hc)
    exact ⟨_, Delete_recipient c s id p hc hr⟩
  · exact ⟨_, Delete_customer c s id p hc⟩

/-- C5 at a concrete input: deleting `card_A` of customer `cus_1`. -/
theorem C5_delete_nil_payload_nil_destination_witness :
    ∃ path : String,
      demoClient.Delete 0 "card_A" (some { Customer := "cus_1" }) =
        .ok ⟨(demoClient.B.Call 0 ⟨"DELETE", path, demoClient.Token, none, .nil, ()⟩).1,
             [⟨"DELETE", path, demoClient.Token, none, .nil, ()⟩],
             (demoClient.B.Call 0 ⟨"DELETE", path, demoClient.Token, none, .nil, ()⟩).2.2⟩ :=
  C5_delete_nil_payload_nil_destination demoClient 0 "card_A" { Customer := "cus_1" }
    (Or.inl (by decide))

/-- C6: for Create, Get, Update and List on a bundle with a parent set, the
operation makes exactly one transport call, handing it a zero-value entity as
destination, and returns exactly the pair of that destination as the
transport left it and the error the transport returned. -/
theorem C6_results_are_the_transports {σ : Type} (c : Client σ) (s : σ) (id : String)
    (p : CardParams) (q : CardListParams)
    (hp : p.Customer ≠ "" ∨ p.Recipient ≠ "") (hq : q.Customer ≠ "" ∨ q.Recipient ≠ "") :
    (∃ verb path body,
      let req : Request := ⟨verb, path, c.Token, body, .card, ({} : Card)⟩
      let out := c.B.Call s req
      c.Create s (some p) = .ok ⟨out.1, [req], (out.2.1, out.2.2)⟩) ∧
    (∃ verb path body,
      let req : Request := ⟨verb, path, c.Token, body, .card, ({} : Card)⟩
      let out := c.B.Call s req
      c.Get s id (some p) = .ok ⟨out.1, [req], (out.2.1, out.2.2)⟩) ∧
    (∃ verb path body,
      let req : Request := ⟨verb, path, c.Token, body, .card, ({} : Card)⟩
      let out := c.B.Call s req
      c.Update s id (some p) = .ok ⟨out.1, [req], (out.2.1, out.2.2)⟩) ∧
    (∃ verb path body,
      let req : Request := ⟨verb, path, c.Token, body, .list, ({} : CardList)⟩
      let out := c.B.Call s req
      c.List s (some q) = .ok ⟨out.1, [req], (out.2.1, out.2.2)⟩) := by
  refine ⟨?_, ?_, ?_, ?_⟩
  · by_cases hc : p.Customer = ""
    · exact ⟨_, _, _, Create_recipient c s p hc (hp.resolve_left (fun h => h hc))⟩
    · exact ⟨_, _, _, Create_customer c s p hc⟩
  · by_cases hc : p.Customer = ""
    · exact ⟨_, _, _, Get_recipient c s id p hc (hp.resolve_left (fun h => h hc))⟩
    · exact ⟨_, _, _, Get_customer c s id p hc⟩
  · by_cases hc : p.Customer = ""
    · exact ⟨_, _, _, Update_recipient c s id p hc (hp.resolve_left (fun h => h hc))⟩
    · exact ⟨_, _, _, Update_customer c s id p hc⟩
  · by_cases hc : q.Customer = ""
    · exact ⟨_, _, _, List_recipient c s q hc (hq.resolve_left (fun h => h hc))⟩
    · exact ⟨_, _, _, List_customer c s q hc⟩

/-- C6 at a concrete input: Create for customer `cus_1` on the counting
transport. -/
theorem C6_results_are_the_transports_witness :
    ∃ verb path body,
      let req : Request := ⟨verb, path, demoClient.Token, body, .card, ({} : Card)⟩
      let out := demoClient.B.Call 0 req
      demoClient.Create 0 (some { Customer := "cus_1" }) =
        .ok ⟨out.1, [req], (out.2.1, out.2.2)⟩ :=
  (C6_results_are_the_transports demoClient 0 "card_A" { Customer := "cus_1" }
    { Customer := "cus_1" } (Or.inl (by decide)) (Or.inl (by decide))).1

/-! ### Payload contents -/

theorem mem_foldl_add {α : Type} (P : α → Prop) [DecidablePred P] (K V : α → String)
    (kv : String × String) (l : _) :
    ∀ b : Values,
      kv ∈ List.foldl (fun b f => if P f then b.Add (K f) (V f) else b) b l ↔
        kv ∈ b ∨ ∃ f ∈ l, P f ∧ kv = (K f, V f) := by
  induction l with
  | nil => intro b; simp
  | cons a t ih =>
    intro b
    rw [List.foldl_cons, ih]
    by_cases ha : P a
    · simp only [ha, if_true, Values.Add, List.mem_append, List.mem_singleton, List.mem_cons,
        exists_eq_or_imp, true_and]
      tauto
    · simp only [ha, if_false, List.mem_cons, exists_eq_or_imp, false_and, false_or]

theorem mem_AppendDetails (p : CardParams) (b : Values) (full : Bool) (kv : String × String) :
    kv ∈ p.AppendDetails b full ↔
      kv ∈ b ∨ ∃ f ∈ p.Details,
        (f.value ≠ "" ∧ (full = true ∨ f.immutable = false)) ∧ kv = (f.key, f.value) :=
  mem_foldl_add (fun f : DetailField => f.value ≠ "" ∧ (full = true ∨ f.immutable = false))
    DetailField.key DetailField.value kv p.Details b

theorem mem_AppendTo (p : CardParams) (b : Values) (kv : String × String) :
    kv ∈ p.AppendTo b ↔ kv ∈ b ∨ ∃ x ∈ p.Common, x.2 ≠ "" ∧ kv = (x.1, x.2) :=
  mem_foldl_add (fun x : String × String => x.2 ≠ "") Prod.fst Prod.snd kv p.Common b

theorem payloads_Create (σ : Type) (c : Client σ) (s : σ) (p : CardParams)
    (hp : p.Customer ≠ "" ∨ p.Recipient ≠ "") :
    payloads (c.Create s (some p)) = some [some (p.AppendTo (p.AppendDetails [] true))] := by
  by_cases hc : p.Customer = ""
  · rw [Create_recipient c s p hc (hp.resolve_left (fun h => h hc))]; rfl
  · rw [Create_customer c s p hc]; rfl

theorem payloads_Update (σ : Type) (c : Client σ) (s : σ) (id : String) (p : CardParams)
    (hp : p.Customer ≠ "" ∨ p.Recipient ≠ "") :
    payloads (c.Update s id (some p)) = some [some (p.AppendTo (p.AppendDetails [] false))] := by
  by_cases hc : p.Customer = ""
  · rw [Update_recipient c s id p hc (hp.resolve_left (fun h => h hc))]; rfl
  · rw [Update_customer c s id p hc]; rfl

/-- C7: for every card parameter bundle with a parent set, Create and Update
each hand the transport one present payload, and every key/value pair of the
payload of Update (details with full=false, then the common fields) is a
key/value pair of the payload of Create (details with full=true, then the
common fields). -/
theorem C7_create_payload_contains_update_payload {σ : Type} (c : Client σ) (s : σ)
    (id : String) (p : CardParams) (hp : p.Customer ≠ "" ∨ p.Recipient ≠ "") :
    ∃ bc bu : Values,
      payloads (c.Create s (some p)) = some [some bc] ∧
      payloads (c.Update s id (some p)) = some [some bu] ∧
      ∀ kv ∈ bu, kv ∈ bc := by
  refine ⟨_, _, payloads_Create σ c s p hp, payloads_Update σ c s id p hp, ?_⟩
  intro kv hkv
  rw [mem_AppendTo, mem_AppendDetails] at hkv ⊢
  rcases hkv with (h | ⟨f, hf, ⟨hv, hm⟩, rfl⟩) | h
  · exact Or.inl (Or.inl h)
  · refine Or.inl (Or.inr ⟨f, hf, ⟨hv, Or.inl rfl⟩, rfl⟩)
  · exact Or.inr h

/-- C7 at the scenario bundle: customer `cus_1` with number, expiry and name. -/
theorem C7_create_payload_contains_update_payload_witness :
    ∃ bc bu : Values,
      payloads (demoClient.Create 0 (some demoParams)) = some [some bc] ∧
      payloads (demoClient.Update 0 "card_A" (some demoParams)) = some [some bu] ∧
      ∀ kv ∈ bu, kv ∈ bc :=
  C7_create_payload_contains_update_payload demoClient 0 "card_A" demoParams
    (Or.inl (by decide))

/-! ### The package-level wrappers -/

theorem refresh_c {σ : Type} (g : Globals σ) :
    (refresh g).c =
      some { B := (match g.c with | none => g.GetBackend | some cl => cl.B), Token := g.Key } := by
  cases h : g.c <;> simp [refresh, h]

theorem tokens_Create {σ : Type} (c : Client σ) (s : σ) (p : CardParams)
    (hp : p.Customer ≠ "" ∨ p.Recipient ≠ "") :
    tokens (c.Create s (some p)) = some [c.Token] := by
  by_cases hc : p.Customer = ""
  · rw [Create_recipient c s p hc (hp.resolve_left (fun h => h hc))]; rfl
  · rw [Create_customer c s p hc]; rfl

theorem tokens_Get {σ : Type} (c : Client σ) (s : σ) (id : String) (p : CardParams)
    (hp : p.Customer ≠ "" ∨ p.Recipient ≠ "") :
    tokens (c.Get s id (some p)) = some [c.Token] := by
  by_cases hc : p.Customer = ""
  · rw [Get_recipient c s id p hc (hp.resolve_left (fun h => h hc))]; rfl
  · rw [Get_customer c s id p hc]; rfl

theorem tokens_Update {σ : Type} (c : Client σ) (s : σ) (id : String) (p : CardParams)
    (hp : p.Customer ≠ "" ∨ p.Recipient ≠ "") :
    tokens (c.Update s id (some p)) = some [c.Token] := by
  by_cases hc : p.Customer = ""
  · rw [Update_recipient c s id p hc (hp.resolve_left (fun h => h hc))]; rfl
  · rw [Update_customer c s id p hc]; rfl

theorem tokens_Delete {σ : Type} (c : Client σ) (s : σ) (id : String) (p : CardParams)
    (hp : p.Customer ≠ "" ∨ p.Recipient ≠ "") :
    tokens (c.Delete s id (some p)) = some [c.Token] := by
  by_cases hc : p.Customer = ""
  · rw [Delete_recipient c s id p hc (hp.resolve_left (fun h => h hc))]; rfl
  · rw [Delete_customer c s id p hc]; rfl

theorem tokens_List {σ : Type} (c : Client σ) (s : σ) (q : CardListParams)
    (hq : q.Customer ≠ "" ∨ q.Recipient ≠ "") :
    tokens (c.List s (some q)) = some [c.Token] := by
  by_cases hc : q.Customer = ""
  · rw [List_recipient c s q hc (hq.resolve_left (fun h => h hc))]; rfl
  · rw [List_customer c s q hc]; rfl

/-- C8: for every package-level call (Create, Get, Update, Delete, List) whose
bundle has a parent set, the call leaves the package state that `refresh`
produces and the auth token of its one transport call is the value of `Key`
at the time of the call, whatever the shared client held before; `refresh`
leaves `Key` and the configured backend alone, and when the shared client
already exists it keeps that client's transport and only replaces its
token. -/
theorem C8_top_level_calls_use_current_key {σ : Type} (g : Globals σ) (s : σ) (id : String)
    (p : CardParams) (q : CardListParams)
    (hp : p.Customer ≠ "" ∨ p.Recipient ≠ "") (hq : q.Customer ≠ "" ∨ q.Recipient ≠ "") :
    ((Create g s (some p)).1 = refresh g ∧ tokens (Create g s (some p)).2 = some [g.Key]) ∧
    ((Get g s id (some p)).1 = refresh g ∧ tokens (Get g s id (some p)).2 = some [g.Key]) ∧
    ((Update g s id (some p)).1 = refresh g ∧
      tokens (Update g s id (some p)).2 = some [g.Key]) ∧
    ((Delete g s id (some p)).1 = refresh g ∧
      tokens (Delete g s id (some p)).2 = some [g.Key]) ∧
    ((List g s (some q)).1 = refresh g ∧ tokens (List g s (some q)).2 = some [g.Key]) ∧
    (refresh g).Key = g.Key ∧ (refresh g).GetBackend = g.GetBackend ∧
    ∀ cl, g.c = some cl → (refresh g).c = some { B := cl.B, Token := g.Key } := by
  refine ⟨⟨rfl, ?_⟩, ⟨rfl, ?_⟩, ⟨rfl, ?_⟩, ⟨rfl, ?_⟩, ⟨rfl, ?_⟩, rfl, rfl, ?_⟩
  · simp only [Create, refresh_c, deref, bind, Except.bind]
    exact tokens_Create _ s p hp
  · simp only [Get, refresh_c, deref, bind, Except.bind]
    exact tokens_Get _ s id p hp
  · simp only [Update, refresh_c, deref, bind, Except.bind]
    exact tokens_Update _ s id p hp
  · simp only [Delete, refresh_c, deref, bind, Except.bind]
    exact tokens_Delete _ s id p hp
  · simp only [List, refresh_c, deref, bind, Except.bind]
    exact tokens_List _ s q hq
  · intro cl h
    rw [refresh_c, h]

/-- C8 at a concrete input: the shared client holds the old token `sk_test`,
`Key` is `sk_live`; the call goes out with `sk_live` and the shared client
keeps its transport. -/
theorem C8_top_level_calls_use_current_key_witness :
    tokens (Get staleGlobals 0 "card_A" (some { Customer := "cus_1" })).2 = some ["sk_live"] ∧
    (refresh staleGlobals).c = some { B := countingBackend, Token := "sk_live" } :=
  have h := C8_top_level_calls_use_current_key staleGlobals 0 "card_A" { Customer := "cus_1" }
    { Customer := "cus_1" } (Or.inl (by decide)) (Or.inl (by decide))
  ⟨h.2.1.2, h.2.2.2.2.2.2.2 demoClient rfl⟩

theorem payloads_List {σ : Type} (c : Client σ) (s : σ) (q : CardListParams)
    (hq : q.Customer ≠ "" ∨ q.Recipient ≠ "") :
    payloads (c.List s (some q)) = some [some (q.AppendTo [])] := by
  by_cases hc : q.Customer = ""
  · rw [List_recipient c s q hc (hq.resolve_left (fun h => h hc))]; rfl
  · rw [List_customer c s q hc]; rfl

/-- C9: for every list parameter bundle with a parent set, List hands the
transport a present (non-nil) payload in its one call; when neither the limit
nor the starting-after field is set that payload is present and empty. -/
theorem C9_list_payload_always_present {σ : Type} (c : Client σ) (s : σ) (q : CardListParams)
    (hq : q.Customer ≠ "" ∨ q.Recipient ≠ "") :
    ∃ b : Values,
      payloads (c.List s (some q)) = some [some b] ∧
      (q.Limit = 0 → q.StartingAfter = "" → b = []) := by
  refine ⟨_, payloads_List c s q hq, ?_⟩
  intro hl hs
  simp [CardListParams.AppendTo, hl, hs]

/-- C9 at a concrete input: listing the cards of recipient `rp_1` with no
filter set sends an empty, present payload. -/
theorem C9_list_payload_always_present_witness :
    ∃ b : Values,
      payloads (demoClient.List 0 (some { Recipient := "rp_1" })) = some [some b] ∧
      ((0 : Nat) = 0 → "" = "" → b = []) :=
  C9_list_payload_always_present demoClient 0 { Recipient := "rp_1" } (Or.inr (by decide))

/-- C10 (the code at the failing input): Get with a nil parameter bundle does
not return; after skipping the payload under `params != nil` it reads
`params.Customer` through the nil pointer and panics, for every client,
transport state and id. -/
theorem C10_Get_nil_params_panics {σ : Type} (c : Client σ) (s : σ) (id : String) :
    c.Get s id none = .error .nilDereference := rfl

/-! ## Evaluation on the counting transport -/

theorem run_Create_success :
    demoClient.Create 0 (some demoParams) =
      .ok ⟨1,
        [⟨"POST", "/customers/cus_1/cards", "sk_test",
          some [("number", "4242"), ("exp_month", "12"), ("exp_year", "24"), ("name", "Jane"),
            ("expand[]", "customer")], .card, ({} : Card)⟩],
        ({ ID := "card_A", Last4 := "4242" }, none)⟩ := rfl

theorem run_Create_failure :
    anonClient.Create 0 (some demoParams) =
      .ok ⟨1,
        [⟨"POST", "/customers/cus_1/cards", "",
          some [("number", "4242"), ("exp_month", "12"), ("exp_year", "24"), ("name", "Jane"),
            ("expand[]", "customer")], .card, ({} : Card)⟩],
        ({}, some (errors.New "unauthorized"))⟩ := rfl

theorem run_Update_payload :
    payloads (demoClient.Update 0 "card_A" (some demoParams)) =
      some [some [("name", "Jane"), ("expand[]", "customer")]] := rfl

theorem run_Get_with_params :
    payloads (demoClient.Get 0 "card_A" (some demoParams)) =
      some [some [("expand[]", "customer")]] := rfl

theorem run_Delete :
    demoClient.Delete 7 "card_A" (some { Recipient := "rp_1" }) =
      .ok ⟨8, [⟨"DELETE", "/recipients/rp_1/cards/card_A", "sk_test", none, .nil, ()⟩], none⟩ :=
  rfl

theorem run_List_filters :
    payloads (demoClient.List 0
        (some { Customer := "cus_1", Limit := 10, StartingAfter := "card_1" })) =
      some [some [("limit", "10"), ("startingAfter", "card_1")]] := by decide

theorem run_first_top_level_call :
    (Create freshGlobals 0 (some demoParams)).1.c =
        some { B := countingBackend, Token := "sk_live" } ∧
      tokens (Create freshGlobals 0 (some demoParams)).2 = some ["sk_live"] :=
  ⟨rfl, rfl⟩

end card
